import Mathlib

/-!
Verification of the API-client subsystem of the frontend template:
the Request Engine (`src/lib/api/client.ts`, `ApiClient.makeRequest` and its
header/token handling) and the Data-Access Hook Layer (`src/lib/api/hooks.ts`,
`useApi`, `usePaginatedApi`, `useAuth.logout`).

The embedding is a shallow one: the retry loop of `makeRequest` becomes a
structurally recursive function driven by an oracle `outcomes : Nat →
AttemptOutcome T` giving the result of each network attempt; the header
object built at the top of `makeRequest` becomes a finite-map value; each
hook's `fetchData`/`loadMore` becomes a pure state-transition function on the
hook's state record, driven by the outcome of the awaited producer call.

JavaScript's `x || y` on a string (which falls through both on `undefined`
and on the empty string) is modelled by `jsOrStr`.
-/

namespace ApiTemplate

/-- The normalized error shape, translated from `class ApiError` in
`client.ts` (lines 30–40): `message` (from `Error`), `status` (default 500),
`errors` (default `[]`). -/
structure ApiError where
  message : String
  status : Nat
  errors : List String
  deriving Repr, DecidableEq

/-- JavaScript `s || d` for an optional string `s`: the default is taken both
when the value is absent (`undefined`) and when it is the empty string
(falsy). -/
def jsOrStr : Option String → String → String
  | some s, d => if s = "" then d else s
  | none, d => d

/-- Possible outcomes of one iteration of the attempt loop in
`makeRequest` (lines 113–135), i.e. of `fetch` + status check + body decode:
the abort controller fired (`AbortError`); `fetch` itself rejected with some
other error; the response arrived with a non-2xx status, carrying the decoded
JSON error body's optional `message` and `errors` fields (`none`/`none` when
the body failed to decode, since `.catch(() => ({}))` substitutes `{}`); the
response was 2xx but its body failed to decode as JSON (`SyntaxError` with an
optional message); or the response was 2xx and decoded to `d`. -/
inductive AttemptOutcome (T : Type) where
  | abort
  | netError (msg : Option String)
  | httpError (status : Nat) (msg : Option String) (errs : Option (List String))
  | badJson (msg : Option String)
  | ok (d : T)

/-- The kinds of value that can reach the `catch` block of the attempt loop:
an `ApiError` thrown by the non-2xx branch, an `AbortError`, or any other
error carrying an optional message. -/
inductive Thrown where
  | apiError (e : ApiError)
  | abortError
  | generic (msg : Option String)

/-- One iteration of the `try` block of `makeRequest` (lines 114–135): a
non-2xx response throws `new ApiError(errorData.message || "HTTP " + status,
status, errorData.errors || [])`; a decoded 2xx body is returned; everything
else throws the corresponding non-`ApiError` value. -/
def attemptStep {T : Type} : AttemptOutcome T → Except Thrown T
  | .abort => .error .abortError
  | .netError m => .error (.generic m)
  | .httpError status m errs =>
      .error (.apiError ⟨jsOrStr m ("HTTP " ++ toString status), status, errs.getD []⟩)
  | .badJson m => .error (.generic m)
  | .ok d => .ok d

/-- The final-attempt branch of the `catch` block (lines 137–149): an
`ApiError` is rethrown as-is, an `AbortError` becomes
`ApiError("Request timeout", 408)`, anything else becomes
`ApiError(error.message || "Network error", 0)`. -/
def finalize : Thrown → ApiError
  | .apiError e => e
  | .abortError => ⟨"Request timeout", 408, []⟩
  | .generic m => ⟨jsOrStr m "Network error", 0, []⟩

/-- Observable trace of one `makeRequest` call: its result, the indices of
the attempts actually issued (in order), and the backoff delays awaited
between consecutive attempts (in order, milliseconds). -/
structure RunResult (T : Type) where
  result : Except ApiError T
  attempts : List Nat
  delays : List Nat
  deriving Repr

/-- The attempt loop of `makeRequest` (lines 113–155), recursing on the
number of attempts still allowed after the current one (`remaining =
retries - attempt`). On a thrown error with `remaining = 0` (the final
attempt, `attempt == retries`) the error is normalized by `finalize` and
propagated; otherwise the loop waits `retryDelay * (attempt + 1)`
milliseconds and retries. A 2xx decoded body returns immediately. -/
def runAttempts {T : Type} (retryDelay : Nat) (outcomes : Nat → AttemptOutcome T) :
    Nat → Nat → RunResult T
  | attempt, 0 =>
    match attemptStep (outcomes attempt) with
    | .ok d => ⟨.ok d, [attempt], []⟩
    | .error t => ⟨.error (finalize t), [attempt], []⟩
  | attempt, remaining + 1 =>
    match attemptStep (outcomes attempt) with
    | .ok d => ⟨.ok d, [attempt], []⟩
    | .error _ =>
      let rest := runAttempts retryDelay outcomes (attempt + 1) remaining
      ⟨rest.result, attempt :: rest.attempts, retryDelay * (attempt + 1) :: rest.delays⟩

/-- `ApiClient.makeRequest` for a fixed endpoint, abstracted over the
per-attempt network outcomes: runs the attempt loop starting at attempt 0
with `retries` further attempts allowed. -/
def makeRequest {T : Type} (retryDelay retries : Nat)
    (outcomes : Nat → AttemptOutcome T) : RunResult T :=
  runAttempts retryDelay outcomes 0 retries

/-- An attempt outcome that does not produce a decoded 2xx body. -/
def attemptFails {T : Type} : AttemptOutcome T → Prop
  | .ok _ => False
  | _ => True

theorem attemptFails_iff {T : Type} (o : AttemptOutcome T) :
    attemptFails o ↔ ∃ t, attemptStep o = .error t := by
  cases o <;> simp [attemptFails, attemptStep]

/-- If every attempt fails, the loop issues every allowed attempt, waits the
linearly growing delays, and ends in a normalized error. -/
theorem runAttempts_all_fail {T : Type} (u : Nat) (outcomes : Nat → AttemptOutcome T)
    (h : ∀ k, attemptFails (outcomes k)) :
    ∀ r a, (runAttempts u outcomes a r).attempts = List.range' a (r + 1) ∧
      (runAttempts u outcomes a r).delays = (List.range' a r).map (fun i => u * (i + 1)) ∧
      ∃ e, (runAttempts u outcomes a r).result = .error e := by
  intro r
  induction r with
  | zero =>
    intro a
    obtain ⟨t, ht⟩ := (attemptFails_iff (outcomes a)).mp (h a)
    simp [runAttempts, ht, List.range']
  | succ n ih =>
    intro a
    obtain ⟨t, ht⟩ := (attemptFails_iff (outcomes a)).mp (h a)
    obtain ⟨ha, hd, e, he⟩ := ih (a + 1)
    refine ⟨?_, ?_, e, ?_⟩ <;> simp [runAttempts, ht, ha, hd, he, List.range']

/-- If some attempt `a` yields a decoded 2xx body, the loop starting at `a`
returns it at once. -/
theorem runAttempts_ok {T : Type} (u : Nat) (outcomes : Nat → AttemptOutcome T)
    (a r : Nat) (d : T) (h : outcomes a = .ok d) :
    (runAttempts u outcomes a r).result = .ok d := by
  cases r <;> simp [runAttempts, h, attemptStep]

/-- Every run ends in a decoded body or in a normalized error. -/
theorem runAttempts_shape {T : Type} (u : Nat) (outcomes : Nat → AttemptOutcome T) :
    ∀ r a, (∃ d, (runAttempts u outcomes a r).result = .ok d) ∨
      ∃ msg status errs,
        (runAttempts u outcomes a r).result = .error ⟨msg, status, errs⟩ := by
  intro r
  induction r with
  | zero =>
    intro a
    cases ht : attemptStep (outcomes a) with
    | ok d => exact Or.inl ⟨d, by simp [runAttempts, ht]⟩
    | error t =>
      refine Or.inr ⟨(finalize t).message, (finalize t).status, (finalize t).errors, ?_⟩
      simp [runAttempts, ht]
  | succ n ih =>
    intro a
    cases ht : attemptStep (outcomes a) with
    | ok d => exact Or.inl ⟨d, by simp [runAttempts, ht]⟩
    | error t =>
      rcases ih (a + 1) with ⟨d, hd⟩ | ⟨m, s, e, he⟩
      · exact Or.inl ⟨d, by simp [runAttempts, ht, hd]⟩
      · exact Or.inr ⟨m, s, e, by simp [runAttempts, ht, he]⟩

/-- If all attempts before the last fail and the last one aborts, the loop
ends with the timeout error. -/
theorem runAttempts_final_abort {T : Type} (u : Nat) (outcomes : Nat → AttemptOutcome T) :
    ∀ r a, (∀ k, a ≤ k → k < a + r → attemptFails (outcomes k)) →
      outcomes (a + r) = .abort →
      (runAttempts u outcomes a r).result = .error ⟨"Request timeout", 408, []⟩ := by
  intro r
  induction r with
  | zero =>
    intro a _ habort
    simp only [Nat.add_zero] at habort
    simp [runAttempts, habort, attemptStep, finalize]
  | succ n ih =>
    intro a hfail habort
    have hfa : attemptFails (outcomes a) :=
      hfail a le_rfl (by omega)
    obtain ⟨t, ht⟩ := (attemptFails_iff (outcomes a)).mp hfa
    have hrec := ih (a + 1) (fun k hk1 hk2 => hfail k (by omega) (by omega))
      (by rw [show a + 1 + n = a + (n + 1) by omega]; exact habort)
    simp [runAttempts, ht, hrec]

/-- C1: with `retries = N` and every attempt failing, `makeRequest` issues
exactly the attempts `0, 1, …, N` in order, waits
`retryDelay * 1, retryDelay * 2, …, retryDelay * N` between consecutive
attempts, and ends in a normalized error. -/
theorem retry_exhaustion_attempts_and_delays {T : Type} (u N : Nat)
    (outcomes : Nat → AttemptOutcome T) (h : ∀ k, attemptFails (outcomes k)) :
    (makeRequest u N outcomes).attempts = List.range (N + 1) ∧
    (makeRequest u N outcomes).delays = (List.range N).map (fun i => u * (i + 1)) ∧
    ∃ e, (makeRequest u N outcomes).result = .error e := by
  obtain ⟨ha, hd, he⟩ := runAttempts_all_fail u outcomes h N 0
  exact ⟨by rw [List.range_eq_range']; exact ha,
    by rw [List.range_eq_range']; exact hd, he⟩

/-- Witness for C1: a concrete engine with `retries = 2` whose every attempt
is a network failure makes attempts `0, 1, 2` with delays `100, 200`. -/
theorem retry_exhaustion_attempts_and_delays_witness :
    (makeRequest 100 2 (fun _ => AttemptOutcome.netError (T := Nat) none)).attempts
        = List.range (2 + 1) ∧
    (makeRequest 100 2 (fun _ => AttemptOutcome.netError (T := Nat) none)).delays
        = (List.range 2).map (fun i => 100 * (i + 1)) ∧
    ∃ e, (makeRequest 100 2 (fun _ => AttemptOutcome.netError (T := Nat) none)).result
        = .error e :=
  retry_exhaustion_attempts_and_delays 100 2 _ (fun _ => trivial)

/-- C2: whatever the per-attempt outcomes (network failure, timeout, non-2xx
response, malformed JSON body, success), a `makeRequest` call either returns
a decoded body or propagates an error that is exactly an `ApiError`
`⟨message, status, errors⟩` — no other error shape escapes. -/
theorem error_shape_invariant {T : Type} (u N : Nat)
    (outcomes : Nat → AttemptOutcome T) :
    (∃ d, (makeRequest u N outcomes).result = .ok d) ∨
      ∃ msg status errs,
        (makeRequest u N outcomes).result = .error ⟨msg, status, errs⟩ :=
  runAttempts_shape u outcomes N 0

/-- C3: if every attempt before the final one fails and the final attempt's
cancellation signal fires, the call fails with status 408 and message
"Request timeout". -/
theorem final_timeout_maps_to_408 {T : Type} (u N : Nat)
    (outcomes : Nat → AttemptOutcome T)
    (hfail : ∀ k, k < N → attemptFails (outcomes k))
    (habort : outcomes N = .abort) :
    (makeRequest u N outcomes).result = .error ⟨"Request timeout", 408, []⟩ :=
  runAttempts_final_abort u outcomes N 0
    (fun k _ hk => hfail k (by omega)) (by simpa using habort)

/-- Witness for C3: with `retries = 1`, a first attempt that returns HTTP 500
followed by a final attempt whose signal fires yields the 408 timeout
error. -/
theorem final_timeout_maps_to_408_witness :
    (makeRequest 50 1
      (fun k => if k = 0 then AttemptOutcome.httpError (T := Nat) 500 none none
                else AttemptOutcome.abort)).result
      = .error ⟨"Request timeout", 408, []⟩ := by
  have h := final_timeout_maps_to_408 50 1
    (fun k => if k = 0 then AttemptOutcome.httpError (T := Nat) 500 none none
              else AttemptOutcome.abort)
    (fun k hk => by interval_cases k; exact trivial) (by simp)
  exact h

/-! ### Headers and the auth-token store -/

/-- A JavaScript header object, observed through key lookup. -/
def Headers : Type := String → Option String

/-- The empty header object `{}`. -/
def emptyHeaders : Headers := fun _ => none

/-- Property assignment / object-spread of one key: `h[k] = v`. -/
def setHeader (h : Headers) (k v : String) : Headers :=
  fun q => if q = k then some v else h q

/-- Spreading a header record over `h`: later entries win. -/
def spreadOver (h : Headers) (kvs : List (String × String)) : Headers :=
  kvs.foldl (fun acc kv => setHeader acc kv.1 kv.2) h

/-- The header computation at the top of `makeRequest` (lines 96–105):
`{ 'Content-Type': 'application/json', ...requestConfig.headers }`, then
`headers['Authorization'] = 'Bearer ' + token` if a token exists. -/
def buildHeaders (configHeaders : List (String × String)) (token : Option String) : Headers :=
  let base := setHeader emptyHeaders "Content-Type" "application/json"
  let merged := spreadOver base configHeaders
  match token with
  | some t => setHeader merged "Authorization" ("Bearer " ++ t)
  | none => merged

/-- The headers of a request issued by `ApiClient.upload` (lines 228–244):
`upload` destructures `headers` out of its config and forwards
`{ ...headers }` — it adds no Content-Type of its own, so the headers that
reach `makeRequest` are exactly the caller's. -/
def uploadHeaders (callerHeaders : List (String × String)) (token : Option String) : Headers :=
  buildHeaders callerHeaders token

/-- The client-side token storage. `ApiClient.getAuthToken` (lines 250–259)
returns `null` on every code path (the storage reads are comments only), and
`ApiClient.setAuthToken` (lines 265–272) has an empty body (the storage
writes are comments only), so the store holds nothing. -/
def TokenStore : Type := Unit

/-- The store as the client is constructed. -/
def tokenStoreInit : TokenStore := ()

/-- Translated from `ApiClient.getAuthToken`: every path returns `null`. -/
def getAuthToken (_ : TokenStore) : Option String := none

/-- Translated from `ApiClient.setAuthToken`: the body performs no store
write (comments only), so the store is returned unchanged. -/
def setAuthToken (s : TokenStore) (_ : String) : TokenStore := s

/-- Spreading key-value pairs never touches a key that none of them names. -/
theorem spreadOver_not_mem (kvs : List (String × String)) :
    ∀ (h : Headers) (k : String), (∀ p ∈ kvs, p.1 ≠ k) → spreadOver h kvs k = h k := by
  induction kvs with
  | nil => intro h k _; rfl
  | cons p rest ih =>
    intro h k hk
    have hp : p.1 ≠ k := hk p (List.mem_cons_self p rest)
    have := ih (setHeader h p.1 p.2) k (fun q hq => hk q (List.mem_cons_of_mem p hq))
    simpa [spreadOver, setHeader, List.foldl_cons, Ne.symm hp] using this

/-- C4, failing input: an upload issued with no caller headers and no token
still carries `Content-Type: application/json` — the default set inside
`makeRequest` is merged *under* the caller headers and never deleted, so the
upload path does not omit it, contrary to `upload`'s own comment and the
spec. -/
theorem upload_content_type_sent_bug :
    uploadHeaders [] none "Content-Type" = some "application/json" ∧
    buildHeaders [] none "Content-Type" = some "application/json" := by
  constructor <;> rfl

/-- C5, counterexample: after `setAuthToken "tok12"`, `getAuthToken` still
yields nothing, so a request with no caller headers carries no
`Authorization` header at all — not `Bearer tok12` as the claim states. -/
theorem auth_token_stub_cex :
    buildHeaders [] (getAuthToken (setAuthToken tokenStoreInit "tok12")) "Authorization"
        = none ∧
    (none : Option String) ≠ some ("Bearer " ++ "tok12") := by
  constructor
  · rfl
  · simp

/-- C5, amended: `makeRequest` attaches `Authorization: Bearer t` exactly
when `getAuthToken` yields a token `t`; in the source `setAuthToken` is a
no-op stub and `getAuthToken` always yields nothing, so after any
`setAuthToken` call a request whose caller headers do not name
`Authorization` carries no `Authorization` header. -/
theorem auth_header_follows_getAuthToken (t : String) (s : TokenStore)
    (hs : List (String × String)) (hnoauth : ∀ p ∈ hs, p.1 ≠ "Authorization") :
    getAuthToken (setAuthToken s t) = none ∧
    buildHeaders hs (getAuthToken (setAuthToken s t)) "Authorization" = none ∧
    ∀ tk, buildHeaders hs (some tk) "Authorization" = some ("Bearer " ++ tk) := by
  refine ⟨rfl, ?_, ?_⟩
  · show spreadOver _ hs "Authorization" = none
    rw [spreadOver_not_mem hs _ "Authorization" hnoauth]
    rfl
  · intro tk
    simp [buildHeaders, setHeader]

/-- Witness for C5's amended theorem at a concrete token and header list. -/
theorem auth_header_follows_getAuthToken_witness :
    getAuthToken (setAuthToken tokenStoreInit "abc") = none ∧
    buildHeaders [("X-Trace", "1")] (getAuthToken (setAuthToken tokenStoreInit "abc"))
        "Authorization" = none ∧
    ∀ tk, buildHeaders [("X-Trace", "1")] (some tk) "Authorization"
        = some ("Bearer " ++ tk) :=
  auth_header_follows_getAuthToken "abc" tokenStoreInit [("X-Trace", "1")]
    (by intro p hp; simp at hp; simp [hp])

/-! ### Data-access hook layer (`hooks.ts`) -/

/-- The response envelope as consumed by `useApi`:
`{ data: T; success: boolean; message?: string }`. -/
structure Envelope (T : Type) where
  data : T
  success : Bool
  message : Option String
  deriving Repr, DecidableEq

/-- The outcome of awaiting a producer call inside a hook: the promise
resolved to an envelope, or it rejected with an `ApiError`, or it rejected
with some other value (`instanceof ApiError` is false). -/
inductive CallOutcome (T : Type) where
  | resolved (env : Envelope T)
  | rejectedApi (e : ApiError)
  | rejectedOther
  deriving DecidableEq

/-- The state owned by one `useApi` instance. -/
structure UseApiState (T : Type) where
  data : Option T
  loading : Bool
  error : Option String
  deriving Repr, DecidableEq

/-- `useApi.fetchData` (hooks.ts lines 44–63) as a state transition on the
hook's state, driven by the producer outcome: set `loading = true` and clear
`error`; on a resolved envelope with `success` store its `data`, otherwise
set `error` to `message || "Unknown error occurred"`; on a rejected
`ApiError` set `error` to its message; on any other rejection set
`error = "Network error occurred"`; finally set `loading = false`. -/
def useApiFetch {T : Type} (s : UseApiState T) (o : CallOutcome T) : UseApiState T :=
  let s1 : UseApiState T := { s with loading := true, error := none }
  let s2 : UseApiState T :=
    match o with
    | .resolved env =>
      if env.success then { s1 with data := some env.data }
      else { s1 with error := some (jsOrStr env.message "Unknown error occurred") }
    | .rejectedApi e => { s1 with error := some e.message }
    | .rejectedOther => { s1 with error := some "Network error occurred" }
  { s2 with loading := false }

/-- The `pagination` block of a paginated envelope (client.ts lines 19–26). -/
structure Pagination where
  current_page : Nat
  per_page : Nat
  total : Nat
  total_pages : Nat
  has_next : Bool
  has_prev : Bool
  deriving Repr, DecidableEq

/-- A paginated response envelope as consumed by `usePaginatedApi`: `data`
is a list of items and `pagination` may be absent (the code guards with
`pagination?.has_next || false`). -/
structure PagEnvelope (T : Type) where
  data : List T
  success : Bool
  message : Option String
  pagination : Option Pagination
  deriving Repr, DecidableEq

/-- The outcome of awaiting the paginated producer call. -/
inductive PagOutcome (T : Type) where
  | resolved (env : PagEnvelope T)
  | rejectedApi (e : ApiError)
  | rejectedOther
  deriving DecidableEq

/-- The state owned by one `usePaginatedApi` instance, including the
internal current-page counter that is not exposed to callers. -/
structure PaginatedState (T : Type) where
  data : List T
  loading : Bool
  error : Option String
  page : Nat
  hasMore : Bool
  deriving Repr, DecidableEq

/-- `usePaginatedApi.fetchData` (hooks.ts lines 86–117) as a state
transition: set `loading = true`; clear `error` only when not appending; on
a resolved success envelope append or replace `data`, set `hasMore` from
`pagination?.has_next || false` and `page` to the fetched page number; on a
soft failure set `error` to `message || "Unknown error occurred"`; on a
rejection set `error` from the `ApiError` message or the generic network
message; finally set `loading = false`. -/
def pagFetch {T : Type} (s : PaginatedState T) (pageNum : Nat) (append : Bool)
    (o : PagOutcome T) : PaginatedState T :=
  let s1 : PaginatedState T := { s with loading := true }
  let s2 : PaginatedState T := if append then s1 else { s1 with error := none }
  let s3 : PaginatedState T :=
    match o with
    | .resolved env =>
      if env.success then
        { s2 with
          data := if append then s2.data ++ env.data else env.data,
          hasMore := match env.pagination with
            | some p => p.has_next
            | none => false,
          page := pageNum }
      else { s2 with error := some (jsOrStr env.message "Unknown error occurred") }
    | .rejectedApi e => { s2 with error := some e.message }
    | .rejectedOther => { s2 with error := some "Network error occurred" }
  { s3 with loading := false }

/-- `usePaginatedApi.loadMore` (hooks.ts lines 119–123): when `hasMore` and
not `loading`, fetch page `page + 1` with `append = true`; otherwise do
nothing. The second component records the page number requested from the
producer (`none` when the producer is not invoked). -/
def loadMore {T : Type} (s : PaginatedState T) (o : PagOutcome T) :
    PaginatedState T × Option Nat :=
  if s.hasMore && !s.loading then (pagFetch s (s.page + 1) true o, some (s.page + 1))
  else (s, none)

/-- The outcome of awaiting `api.user.logout()` inside `useAuth.logout`. -/
inductive LogoutCallOutcome where
  | resolved
  | rejected
  deriving DecidableEq

/-- Observable effects of one `useAuth.logout()` invocation: whether
`refetch()` was invoked, whether the error was logged via `console.error`,
whether any credential store was cleared, and whether an exception escaped
to the caller. -/
structure LogoutTrace where
  refetched : Bool
  loggedError : Bool
  clearedCredentials : Bool
  raised : Bool
  deriving Repr, DecidableEq

/-- `useAuth.logout` (hooks.ts lines 313–322):
`try { await api.user.logout(); await refetch() } catch (e) {
console.error(...) }`. Credential clearing exists only as a comment, so no
trace ever clears credentials; `refetch` itself never rejects (its body
catches everything), so the only branch point is the logout call. -/
def authLogout : LogoutCallOutcome → LogoutTrace
  | .resolved => { refetched := true, loggedError := false,
                   clearedCredentials := false, raised := false }
  | .rejected => { refetched := false, loggedError := true,
                   clearedCredentials := false, raised := false }

/-- C6, counterexample: when the logout network call fails, `refetch` is not
invoked (the `await refetch()` sits inside the `try` after the failing call)
and no credentials are cleared, contradicting the claim that credentials are
cleared and a refetch is triggered regardless of failure. -/
theorem logout_failure_no_refetch_cex :
    (authLogout LogoutCallOutcome.rejected).refetched = false ∧
    (authLogout LogoutCallOutcome.rejected).clearedCredentials = false ∧
    (authLogout LogoutCallOutcome.rejected).loggedError = true := by
  exact ⟨rfl, rfl, rfl⟩

/-- C6, amended: `logout` never surfaces a failure to the caller; on a
successful logout call it triggers a refetch of the current user, while on a
failed call the error is only logged and no refetch occurs; credential
clearing is a comment-only stub and never happens. -/
theorem logout_behavior (o : LogoutCallOutcome) :
    (authLogout o).raised = false ∧
    (authLogout o).clearedCredentials = false ∧
    ((authLogout o).refetched = true ↔ o = LogoutCallOutcome.resolved) ∧
    ((authLogout o).loggedError = true ↔ o = LogoutCallOutcome.rejected) := by
  cases o <;> simp [authLogout]

/-- C7: starting from a loaded page 1 (`loading = false`, `hasMore = true`,
`page = 1`), two successive `loadMore` calls whose fetches both succeed —
the first page's envelope having `has_next = true` so that `hasMore` holds
before the second call — produce `data` equal to the existing items followed
by page 2's items followed by page 3's items, with `hasMore` equal to the
last fetched page's `has_next`, and request pages 2 and 3 in order. -/
theorem paginated_double_loadMore_append {T : Type} (s : PaginatedState T)
    (env2 env3 : PagEnvelope T) (pag2 pag3 : Pagination)
    (hload : s.loading = false) (hmore : s.hasMore = true) (hpage : s.page = 1)
    (h2ok : env2.success = true) (h2p : env2.pagination = some pag2)
    (h2next : pag2.has_next = true)
    (h3ok : env3.success = true) (h3p : env3.pagination = some pag3) :
    (loadMore s (.resolved env2)).2 = some 2 ∧
    (loadMore ((loadMore s (.resolved env2)).1) (.resolved env3)).2 = some 3 ∧
    (loadMore ((loadMore s (.resolved env2)).1) (.resolved env3)).1.data
        = s.data ++ env2.data ++ env3.data ∧
    (loadMore ((loadMore s (.resolved env2)).1) (.resolved env3)).1.hasMore
        = pag3.has_next := by
  have h1 : loadMore s (.resolved env2)
      = (pagFetch s (s.page + 1) true (.resolved env2), some (s.page + 1)) := by
    simp [loadMore, hmore, hload]
  have hs2 : pagFetch s (s.page + 1) true (.resolved env2)
      = { s with data := s.data ++ env2.data, loading := false,
                 hasMore := pag2.has_next, page := s.page + 1 } := by
    simp [pagFetch, h2ok, h2p]
  rw [h1, hs2]
  simp [loadMore, h2next, pagFetch, h3ok, h3p, hpage]

/-- Witness for C7 at concrete pages `[1, 2] ++ [3, 4] ++ [5]`. -/
theorem paginated_double_loadMore_append_witness :
    (loadMore (T := Nat) ⟨[1, 2], false, none, 1, true⟩
        (.resolved ⟨[3, 4], true, none, some ⟨2, 2, 5, 3, true, true⟩⟩)).2 = some 2 ∧
    (loadMore (loadMore (T := Nat) ⟨[1, 2], false, none, 1, true⟩
        (.resolved ⟨[3, 4], true, none, some ⟨2, 2, 5, 3, true, true⟩⟩)).1
        (.resolved ⟨[5], true, none, some ⟨3, 2, 5, 3, false, true⟩⟩)).2 = some 3 ∧
    (loadMore (loadMore (T := Nat) ⟨[1, 2], false, none, 1, true⟩
        (.resolved ⟨[3, 4], true, none, some ⟨2, 2, 5, 3, true, true⟩⟩)).1
        (.resolved ⟨[5], true, none, some ⟨3, 2, 5, 3, false, true⟩⟩)).1.data
        = [1, 2] ++ [3, 4] ++ [5] ∧
    (loadMore (loadMore (T := Nat) ⟨[1, 2], false, none, 1, true⟩
        (.resolved ⟨[3, 4], true, none, some ⟨2, 2, 5, 3, true, true⟩⟩)).1
        (.resolved ⟨[5], true, none, some ⟨3, 2, 5, 3, false, true⟩⟩)).1.hasMore
        = Pagination.has_next ⟨3, 2, 5, 3, false, true⟩ :=
  paginated_double_loadMore_append ⟨[1, 2], false, none, 1, true⟩
    ⟨[3, 4], true, none, some ⟨2, 2, 5, 3, true, true⟩⟩
    ⟨[5], true, none, some ⟨3, 2, 5, 3, false, true⟩⟩
    ⟨2, 2, 5, 3, true, true⟩ ⟨3, 2, 5, 3, false, true⟩
    rfl rfl rfl rfl rfl rfl rfl rfl

/-- C8: when `hasMore` is false or a fetch is already loading, `loadMore`
leaves the whole state (including `data` and the page counter) unchanged and
does not invoke the producer. -/
theorem loadMore_noop {T : Type} (s : PaginatedState T) (o : PagOutcome T)
    (h : s.hasMore = false ∨ s.loading = true) :
    loadMore s o = (s, none) := by
  rcases h with h | h <;> simp [loadMore, h]

/-- Witness for C8 at a concrete exhausted state. -/
theorem loadMore_noop_witness :
    loadMore (T := Nat) ⟨[9], false, none, 4, false⟩ PagOutcome.rejectedOther
        = (⟨[9], false, none, 4, false⟩, none) :=
  loadMore_noop _ _ (Or.inl rfl)

/-- A paginated producer outcome that is not a success envelope: the call
rejected, or it resolved to an envelope with `success = false`. -/
def pagOutcomeFails {T : Type} : PagOutcome T → Prop
  | .resolved env => env.success = false
  | .rejectedApi _ => True
  | .rejectedOther => True

/-- C10: a fetch that rejects or resolves to a `success = false` envelope
leaves `data` and the internal page counter unchanged (for any requested
page and append mode); consequently, after a failed `loadMore` the next
`loadMore` requests the very same page number again — failed pages are never
skipped. -/
theorem failed_fetch_preserves_page {T : Type} (s : PaginatedState T)
    (o o' : PagOutcome T) (pageNum : Nat) (append : Bool)
    (hfail : pagOutcomeFails o)
    (hmore : s.hasMore = true) (hload : s.loading = false) :
    (pagFetch s pageNum append o).page = s.page ∧
    (pagFetch s pageNum append o).data = s.data ∧
    (loadMore s o).2 = some (s.page + 1) ∧
    (loadMore ((loadMore s o).1) o').2 = some (s.page + 1) := by
  have hpreserve : ∀ (pn : Nat) (ap : Bool),
      (pagFetch s pn ap o).page = s.page ∧ (pagFetch s pn ap o).data = s.data ∧
      (pagFetch s pn ap o).hasMore = s.hasMore ∧ (pagFetch s pn ap o).loading = false := by
    intro pn ap
    cases o with
    | resolved env =>
      simp only [pagOutcomeFails] at hfail
      cases ap <;> simp [pagFetch, hfail]
    | rejectedApi e => cases ap <;> simp [pagFetch]
    | rejectedOther => cases ap <;> simp [pagFetch]
  obtain ⟨hp, hd, hm, hl⟩ := hpreserve (s.page + 1) true
  refine ⟨(hpreserve pageNum append).1, (hpreserve pageNum append).2.1, ?_, ?_⟩
  · simp [loadMore, hmore, hload]
  · simp [loadMore, hmore, hload, hp, hm, hl]

/-- Witness for C10: a rejected fetch from page 3 leaves the counter at 3
and a second `loadMore` requests page 4 again. -/
theorem failed_fetch_preserves_page_witness :
    (pagFetch (T := Nat) ⟨[7], false, none, 3, true⟩ 4 true PagOutcome.rejectedOther).page
        = 3 ∧
    (pagFetch (T := Nat) ⟨[7], false, none, 3, true⟩ 4 true PagOutcome.rejectedOther).data
        = [7] ∧
    (loadMore (T := Nat) ⟨[7], false, none, 3, true⟩ PagOutcome.rejectedOther).2
        = some (3 + 1) ∧
    (loadMore ((loadMore (T := Nat) ⟨[7], false, none, 3, true⟩
        PagOutcome.rejectedOther).1) PagOutcome.rejectedOther).2 = some (3 + 1) :=
  failed_fetch_preserves_page ⟨[7], false, none, 3, true⟩
    PagOutcome.rejectedOther PagOutcome.rejectedOther 4 true trivial rfl rfl

/-- C9, counterexample: a `success = false` envelope whose `message` is the
present-but-empty string makes `useApi` set `error` to
"Unknown error occurred" rather than to the envelope's message (the code
uses `||`, which discards an empty string), refuting the claim that the
error is set to the envelope's message whenever one is present. -/
theorem useApi_empty_message_cex :
    (useApiFetch (T := Nat) ⟨some 7, false, none⟩
        (CallOutcome.resolved ⟨0, false, some ""⟩)).error
      = some "Unknown error occurred" ∧
    Envelope.message (T := Nat) ⟨0, false, some ""⟩ = some "" ∧
    some "" ≠ some "Unknown error occurred" := by
  refine ⟨rfl, rfl, by simp⟩

/-- C9, amended: a 2xx response whose envelope has `success = false` is
returned by the Request Engine without raising; the single-entity hook then
leaves `data` unchanged and sets `error` to the envelope's message when it
is present and non-empty, and to "Unknown error occurred" when the message
is absent or empty. -/
theorem soft_failure_surfaces_as_error {T : Type} (u N : Nat)
    (outcomes : Nat → AttemptOutcome (Envelope T)) (env : Envelope T)
    (s : UseApiState T)
    (hout : outcomes 0 = .ok env) (hsucc : env.success = false) :
    (makeRequest u N outcomes).result = .ok env ∧
    (useApiFetch s (.resolved env)).data = s.data ∧
    (useApiFetch s (.resolved env)).loading = false ∧
    (∀ m, env.message = some m → m ≠ "" →
      (useApiFetch s (.resolved env)).error = some m) ∧
    ((env.message = none ∨ env.message = some "") →
      (useApiFetch s (.resolved env)).error = some "Unknown error occurred") := by
  refine ⟨runAttempts_ok u outcomes 0 N env hout, ?_, ?_, ?_, ?_⟩
  · simp [useApiFetch, hsucc]
  · simp [useApiFetch, hsucc]
  · intro m hm hne
    simp [useApiFetch, hsucc, hm, jsOrStr, hne]
  · rintro (hm | hm) <;> simp [useApiFetch, hsucc, hm, jsOrStr]

/-- Witness for C9's amended theorem: a concrete soft-failure envelope with
message "boom" surfaces as `error = "boom"` with `data` untouched. -/
theorem soft_failure_surfaces_as_error_witness :
    (makeRequest 10 2 (fun _ => AttemptOutcome.ok
        (Envelope.mk (5 : Nat) false (some "boom")))).result
      = .ok ⟨5, false, some "boom"⟩ ∧
    (useApiFetch (T := Nat) ⟨some 3, false, none⟩
        (.resolved ⟨5, false, some "boom"⟩)).data = some 3 ∧
    (useApiFetch (T := Nat) ⟨some 3, false, none⟩
        (.resolved ⟨5, false, some "boom"⟩)).loading = false ∧
    (∀ m, Envelope.message (T := Nat) ⟨5, false, some "boom"⟩ = some m → m ≠ "" →
      (useApiFetch (T := Nat) ⟨some 3, false, none⟩
        (.resolved ⟨5, false, some "boom"⟩)).error = some m) ∧
    ((Envelope.message (T := Nat) ⟨5, false, some "boom"⟩ = none ∨
        Envelope.message (T := Nat) ⟨5, false, some "boom"⟩ = some "") →
      (useApiFetch (T := Nat) ⟨some 3, false, none⟩
        (.resolved ⟨5, false, some "boom"⟩)).error
        = some "Unknown error occurred") :=
  soft_failure_surfaces_as_error 10 2 _ ⟨5, false, some "boom"⟩
    ⟨some 3, false, none⟩ rfl rfl

end ApiTemplate
